import Mathlib

/-!
# Verification of the Alarmclock firmware control core

Shallow embedding of `src/alarmclock.cpp` (Raspberry Pi Pico alarm clock).
The control loop running on core 1 (`core1_main`) is embedded as a step
function on an explicit state record; the pure calendar helper
`number_of_days` is embedded directly; the firing protocol
(`alarm_callback`) is embedded as a function over a finite trace of
button/time samples.
-/

set_option maxHeartbeats 1000000

namespace Alarmclock

/-! ## Constants from the source -/

def WAIT_DURATION_MS : Nat := 20
def MAX_ALARM_TIME_SEC : Nat := 60
def SLEEP_MODE_ACTIVATION_TIME_MS : Nat := 10000

/-! ## Data model -/

/-- The UI modes, one constructor per `#define`d mode constant in the source. -/
inductive Mode where
  | MENU
  | CLOCK
  | SET_CLOCK_YEAR
  | SET_CLOCK_MONTH
  | SET_CLOCK_DAY
  | SET_CLOCK_WEEKDAY
  | SET_CLOCK_HOUR
  | SET_CLOCK_MIN
  | SET_CLOCK_SEC
  | SET_CLOCK_FINAL
  | ALARM_MENU
  | DISABLE_ALARM
  | SET_ALARM_HOUR
  | SET_ALARM_MIN
  | SET_ALARM_SEC
  | SET_ALARM_FINAL
  | SLEEP_MODE
  deriving DecidableEq, Repr

/-- The `datetime_t` record of the Pico SDK, with the fields the firmware
uses.  Machine integers are embedded as `Nat`; all operations in the
firmware keep the fields inside their documented ranges, so no overflow
arithmetic is needed. -/
structure DateTime where
  year : Nat
  month : Nat
  day : Nat
  dotw : Nat
  hour : Nat
  min : Nat
  sec : Nat
  deriving DecidableEq, Repr

/-- An alarm time: only hour/min/sec are meaningful (the firmware stores
`-1` in the date fields of its `datetime_t` and never reads them). -/
structure AlarmTime where
  hour : Nat
  min : Nat
  sec : Nat
  deriving DecidableEq, Repr

/-- The debounced input observed in one iteration of the core-1 loop:
either no button, or exactly one of the four buttons (the `if`/`else if`
chain in the source reacts to at most one button per quantum and waits
for its release, so one loop iteration sees one debounced edge). -/
inductive Inp where
  | none
  | left
  | right
  | select
  | back
  deriving DecidableEq, Repr

/-- The global state shared between the two cores, plus a model of the RTC
peripheral (`rtcDatetime` = the calendar stored in the RTC, `rtcAlarm` =
the currently installed alarm compare value, `Option.none` if disarmed). -/
structure State where
  datetime_set : Bool
  alarm_enabled : Bool
  current_mode : Mode
  menu_index : Nat
  sleep_mode_count : Nat
  alarm_settime : AlarmTime
  set_date : DateTime
  alarmtime : AlarmTime
  rtcDatetime : DateTime
  rtcAlarm : Option AlarmTime
  deriving DecidableEq, Repr

/-! ## Calendar utility -/

/-- The function `number_of_days` from the source: the `month==JAN || ...`
chains are embedded with the enum values `JAN=1 .. DEC=12` substituted. -/
def number_of_days (year month : Nat) : Nat :=
  if month = 1 ∨ month = 3 ∨ month = 5 ∨ month = 7 ∨ month = 8 ∨ month = 10 ∨ month = 12 then 31
  else if month = 4 ∨ month = 6 ∨ month = 9 ∨ month = 11 then 30
  else if year % 400 = 0 then 29
  else if year % 100 = 0 then 28
  else if year % 4 = 0 then 29
  else 28

/-- The Gregorian day count as the spec states it, written from the spec's
words for the refinement claim C1: 31 for Jan/Mar/May/Jul/Aug/Oct/Dec,
30 for Apr/Jun/Sep/Nov, and for February 29 iff the year is divisible by
400 or (divisible by 4 and not by 100), else 28. -/
def gregorian_days (year month : Nat) : Nat :=
  if month = 1 ∨ month = 3 ∨ month = 5 ∨ month = 7 ∨ month = 8 ∨ month = 10 ∨ month = 12 then 31
  else if month = 4 ∨ month = 6 ∨ month = 9 ∨ month = 11 then 30
  else if year % 400 = 0 ∨ (year % 4 = 0 ∧ ¬ year % 100 = 0) then 29
  else 28

/-! ## Field edit operations

The source edits each wizard field with the idiom
`x = (x==lo)?hi:x-1` (Left) and `x = (x==hi)?lo:x+1` (Right). -/

/-- Decrement with wraparound, `(x==lo)?hi:x-1`. -/
def wrapDec (lo hi x : Nat) : Nat := if x = lo then hi else x - 1

/-- Increment with wraparound, `(x==hi)?lo:x+1`. -/
def wrapInc (lo hi x : Nat) : Nat := if x = hi then lo else x + 1

/-! ## The core-1 control loop as a step function

One call of `step` is one iteration of the `while (true)` loop of
`core1_main`, given the debounced input seen in that iteration.
`rtcSetOk` models the boolean result of the SDK call
`rtc_set_datetime` (false when the peripheral rejects the date). -/

def step (rtcSetOk : DateTime → Bool) (s : State) (i : Inp) : State :=
  match s.current_mode, i with
  | Mode.CLOCK, i =>
      -- if BACK: reset sleep count, go to MENU; then (unconditionally)
      -- sleep_mode_count++ and the threshold check, as in the source.
      let s1 := if i = Inp.back
                then { s with sleep_mode_count := 0, current_mode := Mode.MENU }
                else s
      let s2 := { s1 with sleep_mode_count := s1.sleep_mode_count + 1 }
      if s2.sleep_mode_count = SLEEP_MODE_ACTIVATION_TIME_MS / WAIT_DURATION_MS
      then { s2 with sleep_mode_count := 0, current_mode := Mode.SLEEP_MODE }
      else s2
  | Mode.SLEEP_MODE, Inp.none => s
  | Mode.SLEEP_MODE, _ => { s with current_mode := Mode.CLOCK }
  | Mode.MENU, Inp.left => { s with menu_index := wrapDec 0 2 s.menu_index }
  | Mode.MENU, Inp.right => { s with menu_index := wrapInc 0 2 s.menu_index }
  | Mode.MENU, Inp.select =>
      if s.menu_index = 0 then
        { s with current_mode := Mode.CLOCK, menu_index := 0 }
      else if s.menu_index = 1 then
        -- rtc_get_datetime(&set_date): seed the draft from the RTC
        { s with current_mode := Mode.SET_CLOCK_YEAR, set_date := s.rtcDatetime, menu_index := 0 }
      else if s.menu_index = 2 then
        { s with current_mode := Mode.ALARM_MENU, menu_index := 0 }
      else
        { s with menu_index := 0 }
  | Mode.MENU, _ => s
  | Mode.SET_CLOCK_YEAR, Inp.left =>
      { s with set_date := { s.set_date with year := wrapDec 0 4095 s.set_date.year } }
  | Mode.SET_CLOCK_YEAR, Inp.right =>
      { s with set_date := { s.set_date with year := wrapInc 0 4095 s.set_date.year } }
  | Mode.SET_CLOCK_YEAR, Inp.select => { s with current_mode := Mode.SET_CLOCK_MONTH }
  | Mode.SET_CLOCK_YEAR, Inp.back => { s with current_mode := Mode.MENU }
  | Mode.SET_CLOCK_YEAR, Inp.none => s
  | Mode.SET_CLOCK_MONTH, Inp.left =>
      { s with set_date := { s.set_date with month := wrapDec 1 12 s.set_date.month } }
  | Mode.SET_CLOCK_MONTH, Inp.right =>
      { s with set_date := { s.set_date with month := wrapInc 1 12 s.set_date.month } }
  | Mode.SET_CLOCK_MONTH, Inp.select =>
      -- clamp the day to the (possibly new) month/year before entering day edit
      let day_num := number_of_days s.set_date.year s.set_date.month
      { s with set_date := { s.set_date with day := if s.set_date.day > day_num then day_num else s.set_date.day },
               current_mode := Mode.SET_CLOCK_DAY }
  | Mode.SET_CLOCK_MONTH, Inp.back => { s with current_mode := Mode.SET_CLOCK_YEAR }
  | Mode.SET_CLOCK_MONTH, Inp.none => s
  | Mode.SET_CLOCK_DAY, Inp.left =>
      { s with set_date := { s.set_date with
          day := wrapDec 1 (number_of_days s.set_date.year s.set_date.month) s.set_date.day } }
  | Mode.SET_CLOCK_DAY, Inp.right =>
      { s with set_date := { s.set_date with
          day := wrapInc 1 (number_of_days s.set_date.year s.set_date.month) s.set_date.day } }
  | Mode.SET_CLOCK_DAY, Inp.select => { s with current_mode := Mode.SET_CLOCK_WEEKDAY }
  | Mode.SET_CLOCK_DAY, Inp.back => { s with current_mode := Mode.SET_CLOCK_MONTH }
  | Mode.SET_CLOCK_DAY, Inp.none => s
  | Mode.SET_CLOCK_WEEKDAY, Inp.left =>
      { s with set_date := { s.set_date with dotw := wrapDec 0 6 s.set_date.dotw } }
  | Mode.SET_CLOCK_WEEKDAY, Inp.right =>
      { s with set_date := { s.set_date with dotw := wrapInc 0 6 s.set_date.dotw } }
  | Mode.SET_CLOCK_WEEKDAY, Inp.select => { s with current_mode := Mode.SET_CLOCK_HOUR }
  | Mode.SET_CLOCK_WEEKDAY, Inp.back => { s with current_mode := Mode.SET_CLOCK_DAY }
  | Mode.SET_CLOCK_WEEKDAY, Inp.none => s
  | Mode.SET_CLOCK_HOUR, Inp.left =>
      { s with set_date := { s.set_date with hour := wrapDec 0 23 s.set_date.hour } }
  | Mode.SET_CLOCK_HOUR, Inp.right =>
      { s with set_date := { s.set_date with hour := wrapInc 0 23 s.set_date.hour } }
  | Mode.SET_CLOCK_HOUR, Inp.select => { s with current_mode := Mode.SET_CLOCK_MIN }
  | Mode.SET_CLOCK_HOUR, Inp.back => { s with current_mode := Mode.SET_CLOCK_WEEKDAY }
  | Mode.SET_CLOCK_HOUR, Inp.none => s
  | Mode.SET_CLOCK_MIN, Inp.left =>
      { s with set_date := { s.set_date with min := wrapDec 0 59 s.set_date.min } }
  | Mode.SET_CLOCK_MIN, Inp.right =>
      { s with set_date := { s.set_date with min := wrapInc 0 59 s.set_date.min } }
  | Mode.SET_CLOCK_MIN, Inp.select => { s with current_mode := Mode.SET_CLOCK_SEC }
  | Mode.SET_CLOCK_MIN, Inp.back => { s with current_mode := Mode.SET_CLOCK_HOUR }
  | Mode.SET_CLOCK_MIN, Inp.none => s
  | Mode.SET_CLOCK_SEC, Inp.left =>
      { s with set_date := { s.set_date with sec := wrapDec 0 59 s.set_date.sec } }
  | Mode.SET_CLOCK_SEC, Inp.right =>
      { s with set_date := { s.set_date with sec := wrapInc 0 59 s.set_date.sec } }
  | Mode.SET_CLOCK_SEC, Inp.select =>
      -- datetime_set = rtc_set_datetime(&set_date); current_mode = SET_CLOCK_FINAL;
      { s with datetime_set := rtcSetOk s.set_date,
               rtcDatetime := if rtcSetOk s.set_date then s.set_date else s.rtcDatetime,
               current_mode := Mode.SET_CLOCK_FINAL }
  | Mode.SET_CLOCK_SEC, Inp.back => { s with current_mode := Mode.SET_CLOCK_MIN }
  | Mode.SET_CLOCK_SEC, Inp.none => s
  | Mode.ALARM_MENU, Inp.left =>
      { s with menu_index := if s.menu_index = 0 then 1 else 0 }
  | Mode.ALARM_MENU, Inp.right =>
      { s with menu_index := if s.menu_index = 1 then 0 else 1 }
  | Mode.ALARM_MENU, Inp.select =>
      if s.menu_index = 0 then
        -- toggle: rtc_disable_alarm() or rtc_set_alarm(&alarmtime, ...)
        { s with rtcAlarm := if s.alarm_enabled then Option.none else some s.alarmtime,
                 alarm_enabled := !s.alarm_enabled,
                 current_mode := Mode.DISABLE_ALARM, menu_index := 0 }
      else if s.menu_index = 1 then
        { s with current_mode := Mode.SET_ALARM_HOUR, alarm_settime := s.alarmtime, menu_index := 0 }
      else
        { s with menu_index := 0 }
  | Mode.ALARM_MENU, Inp.back => { s with current_mode := Mode.MENU, menu_index := 0 }
  | Mode.ALARM_MENU, Inp.none => s
  | Mode.SET_ALARM_HOUR, Inp.left =>
      { s with alarm_settime := { s.alarm_settime with hour := wrapDec 0 23 s.alarm_settime.hour } }
  | Mode.SET_ALARM_HOUR, Inp.right =>
      { s with alarm_settime := { s.alarm_settime with hour := wrapInc 0 23 s.alarm_settime.hour } }
  | Mode.SET_ALARM_HOUR, Inp.select => { s with current_mode := Mode.SET_ALARM_MIN }
  | Mode.SET_ALARM_HOUR, Inp.back => { s with current_mode := Mode.MENU }
  | Mode.SET_ALARM_HOUR, Inp.none => s
  | Mode.SET_ALARM_MIN, Inp.left =>
      { s with alarm_settime := { s.alarm_settime with min := wrapDec 0 59 s.alarm_settime.min } }
  | Mode.SET_ALARM_MIN, Inp.right =>
      { s with alarm_settime := { s.alarm_settime with min := wrapInc 0 59 s.alarm_settime.min } }
  | Mode.SET_ALARM_MIN, Inp.select => { s with current_mode := Mode.SET_ALARM_SEC }
  | Mode.SET_ALARM_MIN, Inp.back => { s with current_mode := Mode.SET_ALARM_HOUR }
  | Mode.SET_ALARM_MIN, Inp.none => s
  | Mode.SET_ALARM_SEC, Inp.left =>
      { s with alarm_settime := { s.alarm_settime with sec := wrapDec 0 59 s.alarm_settime.sec } }
  | Mode.SET_ALARM_SEC, Inp.right =>
      { s with alarm_settime := { s.alarm_settime with sec := wrapInc 0 59 s.alarm_settime.sec } }
  | Mode.SET_ALARM_SEC, Inp.select =>
      -- alarmtime = alarm_settime; rtc_set_alarm(&alarmtime, ...); alarm_enabled = true;
      { s with alarmtime := s.alarm_settime,
               rtcAlarm := some s.alarm_settime,
               alarm_enabled := true,
               current_mode := Mode.SET_ALARM_FINAL }
  | Mode.SET_ALARM_SEC, Inp.back => { s with current_mode := Mode.SET_ALARM_MIN }
  | Mode.SET_ALARM_SEC, Inp.none => s
  | Mode.SET_ALARM_FINAL, Inp.select => { s with current_mode := Mode.CLOCK }
  | Mode.SET_ALARM_FINAL, _ => s
  | Mode.SET_CLOCK_FINAL, Inp.select => { s with current_mode := Mode.CLOCK }
  | Mode.SET_CLOCK_FINAL, _ => s
  | Mode.DISABLE_ALARM, Inp.select => { s with current_mode := Mode.CLOCK }
  | Mode.DISABLE_ALARM, _ => s

/-- Running the control loop over a finite trace of debounced inputs. -/
def run (rtcSetOk : DateTime → Bool) (s : State) : List Inp → State
  | [] => s
  | i :: is => run rtcSetOk (step rtcSetOk s i) is

/-! ## Display tables and the commit-confirmation screen of core 0 -/

/-- The `weekdays` string table of the source. -/
def weekdays : List String :=
  ["Sunday", "Monday", "Tuesday", "Wednesday", "Thursday", "Friday", "Saturday"]

/-- The `months` string table of the source. -/
def months : List String :=
  ["Jan", "Feb", "Mar", "Apr", "May", "Jun", "Jul", "Aug", "Sep", "Oct", "Nov", "Dec"]

/-- The two text lines core 0 prints in `SET_CLOCK_FINAL` mode, as a
function of the `datetime_set` flag. -/
def renderSetClockFinal (ds : Bool) : String × String :=
  if ds then ("CLOCK", "IS SET") else ("INVALID", "DATE")

/-- The initial `alarmtime` global (hour 8, min 0, sec 0). -/
def alarmtime0 : AlarmTime := { hour := 8, min := 0, sec := 0 }

/-- The initial `date` global installed into the RTC by `main`. -/
def date0 : DateTime :=
  { year := 2022, month := 7, day := 1, dotw := 5, hour := 0, min := 0, sec := 0 }

/-! ## Calendar utility lemmas -/

/-- `number_of_days` always lands in 28..31: every month not in the
31-day or 30-day groups falls into the February branch. -/
theorem number_of_days_bounds (year month : Nat) :
    28 ≤ number_of_days year month ∧ number_of_days year month ≤ 31 := by
  unfold number_of_days
  split_ifs <;> omega

/-- C1: for every year in 0..4095 and month in 1..12, `number_of_days`
returns exactly the Gregorian day count (31 for Jan/Mar/May/Jul/Aug/Oct/Dec,
30 for Apr/Jun/Sep/Nov, February 29 iff year divisible by 400 or by 4 but
not by 100, else 28), and in particular 28 for (1900, 2) and 29 for
(2000, 2). -/
theorem number_of_days_matches_gregorian (year month : Nat)
    (hy : year ≤ 4095) (h1 : 1 ≤ month) (h2 : month ≤ 12) :
    number_of_days year month = gregorian_days year month ∧
    number_of_days 1900 2 = 28 ∧ number_of_days 2000 2 = 29 := by
  refine ⟨?_, by decide, by decide⟩
  unfold number_of_days gregorian_days
  split_ifs <;> omega

/-- Witness for C1 at the concrete input (2000, 2). -/
theorem number_of_days_matches_gregorian_witness :
    number_of_days 2000 2 = gregorian_days 2000 2 ∧
    number_of_days 1900 2 = 28 ∧ number_of_days 2000 2 = 29 :=
  number_of_days_matches_gregorian 2000 2 (by decide) (by decide) (by decide)

/-! ## Range invariants of the draft date -/

/-- The documented field ranges of a `datetime_t` (day additionally
bounded by 31; the exact month-dependent bound is tracked separately). -/
def DateTime.inRange (d : DateTime) : Prop :=
  d.year ≤ 4095 ∧ 1 ≤ d.month ∧ d.month ≤ 12 ∧ 1 ≤ d.day ∧ d.day ≤ 31 ∧
  d.dotw ≤ 6 ∧ d.hour ≤ 23 ∧ d.min ≤ 59 ∧ d.sec ≤ 59

/-- The modes in which the day field of the draft has already been clamped
against the current month/year: the day-edit field and everything after it
up to (and including) the commit confirmation. -/
def dayMode : Mode → Bool
  | Mode.SET_CLOCK_DAY => true
  | Mode.SET_CLOCK_WEEKDAY => true
  | Mode.SET_CLOCK_HOUR => true
  | Mode.SET_CLOCK_MIN => true
  | Mode.SET_CLOCK_SEC => true
  | Mode.SET_CLOCK_FINAL => true
  | _ => false

/-- The control-loop invariant: the draft and the RTC calendar are in
range, and from the day-edit field onward the draft's day does not exceed
the day count of its month/year. -/
def Inv (s : State) : Prop :=
  s.set_date.inRange ∧ s.rtcDatetime.inRange ∧
  s.rtcDatetime.day ≤ number_of_days s.rtcDatetime.year s.rtcDatetime.month ∧
  (dayMode s.current_mode = true →
    s.set_date.day ≤ number_of_days s.set_date.year s.set_date.month)

set_option maxHeartbeats 4000000 in
/-- One step of the control loop preserves the invariant. -/
theorem step_preserves_Inv (f : DateTime → Bool) (s : State) (i : Inp)
    (h : Inv s) : Inv (step f s i) := by
  obtain ⟨ds, ae, cm, mi, smc, ast, sd, atv, rd, ra⟩ := s
  obtain ⟨y, mo, d, w, hh, mm, ss⟩ := sd
  obtain ⟨ry, rmo, rdy, rw, rhh, rmm, rss⟩ := rd
  obtain ⟨hsd, hrtc, hrday, hday⟩ := h
  obtain ⟨h1, h2, h3, h4, h5, h6, h7, h8, h9⟩ := hsd
  obtain ⟨g1, g2, g3, g4, g5, g6, g7, g8, g9⟩ := hrtc
  dsimp only at h1 h2 h3 h4 h5 h6 h7 h8 h9 g1 g2 g3 g4 g5 g6 g7 g8 g9 hrday hday
  have hb := number_of_days_bounds y mo
  cases cm <;>
    (try simp only [dayMode] at hday) <;>
    (try simp at hday) <;>
    cases i <;>
    simp only [step, Inv, DateTime.inRange, dayMode, wrapInc, wrapDec,
      SLEEP_MODE_ACTIVATION_TIME_MS, WAIT_DURATION_MS] <;>
    (try split_ifs) <;>
    (try simp) <;>
    omega

/-- Running any input trace preserves the invariant. -/
theorem run_preserves_Inv (f : DateTime → Bool) (s : State) (l : List Inp)
    (h : Inv s) : Inv (run f s l) := by
  induction l generalizing s with
  | nil => exact h
  | cons i is ih => exact ih _ (step_preserves_Inv f s i h)

/-- A concrete well-formed state in Clock mode, used to witness the
invariant theorems (globals as `main` leaves them after boot, with the
draft seeded from the boot date). -/
def sClock : State :=
  { datetime_set := false, alarm_enabled := false, current_mode := Mode.CLOCK,
    menu_index := 0, sleep_mode_count := 0,
    alarm_settime := { hour := 0, min := 0, sec := 0 },
    set_date := date0, alarmtime := alarmtime0,
    rtcDatetime := date0, rtcAlarm := Option.none }

/-- The state `sClock` satisfies the control-loop invariant. -/
theorem Inv_sClock : Inv sClock := by
  unfold Inv sClock DateTime.inRange dayMode date0 number_of_days
  decide

/-- C2: from any state satisfying the well-formedness invariant (in
particular a well-formed draft), after any input trace the invariant still
holds, and whenever the machine is in the day-edit field or any later
field of the clock wizard (including the commit), the draft's day does not
exceed `number_of_days` of the draft's year/month: the Select in the month
field clamps the day down, and Left/Right in the day field wrap inside
`1..number_of_days`. -/
theorem draft_day_clamped_invariant (f : DateTime → Bool) (s : State)
    (l : List Inp) (h : Inv s) :
    Inv (run f s l) ∧
    (dayMode (run f s l).current_mode = true →
      1 ≤ (run f s l).set_date.day ∧
      (run f s l).set_date.day ≤
        number_of_days (run f s l).set_date.year (run f s l).set_date.month) := by
  have hr := run_preserves_Inv f s l h
  exact ⟨hr, fun hm => ⟨hr.1.2.2.2.1, hr.2.2.2 hm⟩⟩

/-- Witness for C2: a concrete trace that enters the clock wizard, sets
the month to February (Left five times from July), and commits it; the
invariant conclusion is instantiated at that trace. -/
theorem draft_day_clamped_invariant_witness :
    Inv (run (fun _ => true) sClock
          [Inp.back, Inp.right, Inp.select, Inp.select, Inp.left, Inp.left,
           Inp.left, Inp.left, Inp.left, Inp.select]) ∧
    (dayMode (run (fun _ => true) sClock
          [Inp.back, Inp.right, Inp.select, Inp.select, Inp.left, Inp.left,
           Inp.left, Inp.left, Inp.left, Inp.select]).current_mode = true →
      1 ≤ (run (fun _ => true) sClock
          [Inp.back, Inp.right, Inp.select, Inp.select, Inp.left, Inp.left,
           Inp.left, Inp.left, Inp.left, Inp.select]).set_date.day ∧
      (run (fun _ => true) sClock
          [Inp.back, Inp.right, Inp.select, Inp.select, Inp.left, Inp.left,
           Inp.left, Inp.left, Inp.left, Inp.select]).set_date.day ≤
        number_of_days
          (run (fun _ => true) sClock
          [Inp.back, Inp.right, Inp.select, Inp.select, Inp.left, Inp.left,
           Inp.left, Inp.left, Inp.left, Inp.select]).set_date.year
          (run (fun _ => true) sClock
          [Inp.back, Inp.right, Inp.select, Inp.select, Inp.left, Inp.left,
           Inp.left, Inp.left, Inp.left, Inp.select]).set_date.month) :=
  draft_day_clamped_invariant (fun _ => true) sClock
    [Inp.back, Inp.right, Inp.select, Inp.select, Inp.left, Inp.left,
     Inp.left, Inp.left, Inp.left, Inp.select] Inv_sClock

/-- C10: every control-loop trace from an invariant state keeps the draft
date fields in range (month 1..12, weekday 0..6, hour 0..23, minute and
second 0..59), so the display loop's accesses `months[month-1]` and
`weekdays[dotw]` on the draft are in bounds. -/
theorem draft_ranges_preserved (f : DateTime → Bool) (s : State)
    (l : List Inp) (h : Inv s) :
    (1 ≤ (run f s l).set_date.month ∧ (run f s l).set_date.month ≤ 12 ∧
     (run f s l).set_date.dotw ≤ 6 ∧ (run f s l).set_date.hour ≤ 23 ∧
     (run f s l).set_date.min ≤ 59 ∧ (run f s l).set_date.sec ≤ 59) ∧
    ((run f s l).set_date.month - 1 < months.length ∧
     (run f s l).set_date.dotw < weekdays.length) ∧
    (months[(run f s l).set_date.month - 1]?).isSome ∧
    (weekdays[(run f s l).set_date.dotw]?).isSome := by
  have hr := run_preserves_Inv f s l h
  obtain ⟨⟨_, q2, q3, _, _, q6, q7, q8, q9⟩, _⟩ := hr
  have hm : (run f s l).set_date.month - 1 < months.length := by
    simp only [months, List.length]
    omega
  have hw : (run f s l).set_date.dotw < weekdays.length := by
    simp only [weekdays, List.length]
    omega
  refine ⟨⟨q2, q3, q6, q7, q8, q9⟩, ⟨hm, hw⟩, ?_, ?_⟩
  · simp [List.getElem?_eq_getElem hm]
  · simp [List.getElem?_eq_getElem hw]

/-- Witness for C10: the range conclusion instantiated at a concrete
trace entering the clock wizard and editing the month. -/
theorem draft_ranges_preserved_witness :
    (1 ≤ (run (fun _ => true) sClock [Inp.back, Inp.right, Inp.select, Inp.left]).set_date.month ∧
     (run (fun _ => true) sClock [Inp.back, Inp.right, Inp.select, Inp.left]).set_date.month ≤ 12 ∧
     (run (fun _ => true) sClock [Inp.back, Inp.right, Inp.select, Inp.left]).set_date.dotw ≤ 6 ∧
     (run (fun _ => true) sClock [Inp.back, Inp.right, Inp.select, Inp.left]).set_date.hour ≤ 23 ∧
     (run (fun _ => true) sClock [Inp.back, Inp.right, Inp.select, Inp.left]).set_date.min ≤ 59 ∧
     (run (fun _ => true) sClock [Inp.back, Inp.right, Inp.select, Inp.left]).set_date.sec ≤ 59) ∧
    ((run (fun _ => true) sClock [Inp.back, Inp.right, Inp.select, Inp.left]).set_date.month - 1 < months.length ∧
     (run (fun _ => true) sClock [Inp.back, Inp.right, Inp.select, Inp.left]).set_date.dotw < weekdays.length) ∧
    (months[(run (fun _ => true) sClock [Inp.back, Inp.right, Inp.select, Inp.left]).set_date.month - 1]?).isSome ∧
    (weekdays[(run (fun _ => true) sClock [Inp.back, Inp.right, Inp.select, Inp.left]).set_date.dotw]?).isSome :=
  draft_ranges_preserved (fun _ => true) sClock
    [Inp.back, Inp.right, Inp.select, Inp.left] Inv_sClock

/-! ## The alarm-set scenario (C3) -/

/-- A state in AlarmMenu with the cursor on the second option ("SET"),
alarm still at its boot value 08:00:00. -/
def sAlarmMenu : State :=
  { datetime_set := false, alarm_enabled := false, current_mode := Mode.ALARM_MENU,
    menu_index := 1, sleep_mode_count := 0,
    alarm_settime := { hour := 0, min := 0, sec := 0 },
    set_date := date0, alarmtime := alarmtime0,
    rtcDatetime := date0, rtcAlarm := Option.none }

/-- The button trace of the scenario: Select (enter the wizard, draft
seeded to 08:00:00), Left (hour 8 → 7), Select, Right thirty times
(minute 0 → 30), Select, Select (second stays 0, commit). -/
def c3Events : List Inp :=
  [Inp.select, Inp.left, Inp.select] ++ List.replicate 30 Inp.right ++
  [Inp.select, Inp.select]

/-- C3: from AlarmMenu with cursor 1, the event sequence Select, edits
setting hour to 07, Select, minute to 30, Select, second 00, Select ends
with the armed alarm equal to 07:30:00, the enabled flag true, the RTC
peripheral re-armed with 07:30:00, and the mode SET_ALARM_FINAL
(the SetAlarmConfirmed screen). -/
theorem alarm_wizard_commit_scenario :
    (run (fun _ => true) sAlarmMenu c3Events).alarmtime = { hour := 7, min := 30, sec := 0 } ∧
    (run (fun _ => true) sAlarmMenu c3Events).alarm_enabled = true ∧
    (run (fun _ => true) sAlarmMenu c3Events).rtcAlarm = some { hour := 7, min := 30, sec := 0 } ∧
    (run (fun _ => true) sAlarmMenu c3Events).current_mode = Mode.SET_ALARM_FINAL := by
  decide

/-! ## Sleep mode (C5) -/

/-- C5: in Clock mode (with no Back press) the idle counter increments
once per quantum; when it reaches `SLEEP_MODE_ACTIVATION_TIME_MS /
WAIT_DURATION_MS` (10000 ms / 20 ms = 500 quanta) it resets to zero and
the mode becomes SLEEP_MODE; from SLEEP_MODE, any button edge moves the
mode to CLOCK — never directly to MENU. -/
theorem sleep_mode_entry_and_wake (f : DateTime → Bool) (s : State) (i : Inp) :
    (s.current_mode = Mode.CLOCK → i ≠ Inp.back →
      ((s.sleep_mode_count + 1 = SLEEP_MODE_ACTIVATION_TIME_MS / WAIT_DURATION_MS →
          (step f s i).current_mode = Mode.SLEEP_MODE ∧
          (step f s i).sleep_mode_count = 0) ∧
       (s.sleep_mode_count + 1 ≠ SLEEP_MODE_ACTIVATION_TIME_MS / WAIT_DURATION_MS →
          (step f s i).current_mode = Mode.CLOCK ∧
          (step f s i).sleep_mode_count = s.sleep_mode_count + 1))) ∧
    (s.current_mode = Mode.SLEEP_MODE → i ≠ Inp.none →
      (step f s i).current_mode = Mode.CLOCK ∧
      (step f s i).current_mode ≠ Mode.MENU) := by
  obtain ⟨ds, ae, cm, mi, smc, ast, sd, atv, rd, ra⟩ := s
  cases cm <;> cases i <;>
    simp [step, SLEEP_MODE_ACTIVATION_TIME_MS, WAIT_DURATION_MS] <;>
    split_ifs <;> simp_all

/-- Witness for C5: a clock state one quantum short of the threshold
enters sleep mode, and a sleeping state woken by Select returns to Clock. -/
theorem sleep_mode_entry_and_wake_witness :
    ({ sClock with sleep_mode_count := 499 }.current_mode = Mode.CLOCK →
      Inp.none ≠ Inp.back →
      ((499 + 1 = SLEEP_MODE_ACTIVATION_TIME_MS / WAIT_DURATION_MS →
          (step (fun _ => true) { sClock with sleep_mode_count := 499 } Inp.none).current_mode = Mode.SLEEP_MODE ∧
          (step (fun _ => true) { sClock with sleep_mode_count := 499 } Inp.none).sleep_mode_count = 0) ∧
       (499 + 1 ≠ SLEEP_MODE_ACTIVATION_TIME_MS / WAIT_DURATION_MS →
          (step (fun _ => true) { sClock with sleep_mode_count := 499 } Inp.none).current_mode = Mode.CLOCK ∧
          (step (fun _ => true) { sClock with sleep_mode_count := 499 } Inp.none).sleep_mode_count = 499 + 1))) ∧
    ({ sClock with sleep_mode_count := 499 }.current_mode = Mode.SLEEP_MODE →
      Inp.none ≠ Inp.none →
      (step (fun _ => true) { sClock with sleep_mode_count := 499 } Inp.none).current_mode = Mode.CLOCK ∧
      (step (fun _ => true) { sClock with sleep_mode_count := 499 } Inp.none).current_mode ≠ Mode.MENU) :=
  sleep_mode_entry_and_wake (fun _ => true) { sClock with sleep_mode_count := 499 } Inp.none

/-! ## Frame property of the armed alarm (C9) -/

/-- C9: the armed `alarmtime` is written only by the final commit of the
alarm wizard (Select in SET_ALARM_SEC); every other mode/input pair —
the AlarmMenu enable/disable toggle, Left/Right edits (which touch only
the `alarm_settime` draft), and Back navigation — leaves it unchanged. -/
theorem alarmtime_frame (f : DateTime → Bool) (s : State) (i : Inp)
    (h : ¬ (s.current_mode = Mode.SET_ALARM_SEC ∧ i = Inp.select)) :
    (step f s i).alarmtime = s.alarmtime := by
  obtain ⟨ds, ae, cm, mi, smc, ast, sd, atv, rd, ra⟩ := s
  cases cm <;> cases i <;>
    simp_all [step] <;> split_ifs <;> simp_all

/-- Witness for C9: the AlarmMenu enable toggle leaves the armed alarm
unchanged. -/
theorem alarmtime_frame_witness :
    (step (fun _ => true) { sAlarmMenu with menu_index := 0 } Inp.select).alarmtime =
      { sAlarmMenu with menu_index := 0 }.alarmtime :=
  alarmtime_frame (fun _ => true) { sAlarmMenu with menu_index := 0 } Inp.select
    (by decide)

/-! ## Back navigation (C7) -/

/-- A concrete state sitting in the first field of the alarm wizard. -/
def sAlarmHour : State :=
  { datetime_set := false, alarm_enabled := false, current_mode := Mode.SET_ALARM_HOUR,
    menu_index := 0, sleep_mode_count := 0,
    alarm_settime := alarmtime0, set_date := date0, alarmtime := alarmtime0,
    rtcDatetime := date0, rtcAlarm := Option.none }

/-- Counterexample to C7 as stated: Back in SET_ALARM_HOUR does NOT
return to ALARM_MENU — the source sets `current_mode = MENU`, the top
menu. -/
theorem alarm_hour_back_counterexample :
    (step (fun _ => true) sAlarmHour Inp.back).current_mode = Mode.MENU ∧
    ¬ (step (fun _ => true) sAlarmHour Inp.back).current_mode = Mode.ALARM_MENU := by
  decide

/-- C7 (amended): Back in the first field of the clock wizard
(SET_CLOCK_YEAR) returns to MENU; Back in the first field of the alarm
wizard (SET_ALARM_HOUR) exits to the top MENU, not to ALARM_MENU; in
every non-first wizard field, Back returns to the previous field. -/
theorem back_navigation_targets (f : DateTime → Bool) (s : State) :
    (s.current_mode = Mode.SET_CLOCK_YEAR → (step f s Inp.back).current_mode = Mode.MENU) ∧
    (s.current_mode = Mode.SET_ALARM_HOUR → (step f s Inp.back).current_mode = Mode.MENU) ∧
    (s.current_mode = Mode.SET_CLOCK_MONTH → (step f s Inp.back).current_mode = Mode.SET_CLOCK_YEAR) ∧
    (s.current_mode = Mode.SET_CLOCK_DAY → (step f s Inp.back).current_mode = Mode.SET_CLOCK_MONTH) ∧
    (s.current_mode = Mode.SET_CLOCK_WEEKDAY → (step f s Inp.back).current_mode = Mode.SET_CLOCK_DAY) ∧
    (s.current_mode = Mode.SET_CLOCK_HOUR → (step f s Inp.back).current_mode = Mode.SET_CLOCK_WEEKDAY) ∧
    (s.current_mode = Mode.SET_CLOCK_MIN → (step f s Inp.back).current_mode = Mode.SET_CLOCK_HOUR) ∧
    (s.current_mode = Mode.SET_CLOCK_SEC → (step f s Inp.back).current_mode = Mode.SET_CLOCK_MIN) ∧
    (s.current_mode = Mode.SET_ALARM_MIN → (step f s Inp.back).current_mode = Mode.SET_ALARM_HOUR) ∧
    (s.current_mode = Mode.SET_ALARM_SEC → (step f s Inp.back).current_mode = Mode.SET_ALARM_MIN) := by
  obtain ⟨ds, ae, cm, mi, smc, ast, sd, atv, rd, ra⟩ := s
  cases cm <;> simp [step]

/-- Witness for C7 (amended): instantiated at the concrete first-field
state of the alarm wizard. -/
theorem back_navigation_targets_witness :
    (sAlarmHour.current_mode = Mode.SET_CLOCK_YEAR →
      (step (fun _ => true) sAlarmHour Inp.back).current_mode = Mode.MENU) ∧
    (sAlarmHour.current_mode = Mode.SET_ALARM_HOUR →
      (step (fun _ => true) sAlarmHour Inp.back).current_mode = Mode.MENU) ∧
    (sAlarmHour.current_mode = Mode.SET_CLOCK_MONTH →
      (step (fun _ => true) sAlarmHour Inp.back).current_mode = Mode.SET_CLOCK_YEAR) ∧
    (sAlarmHour.current_mode = Mode.SET_CLOCK_DAY →
      (step (fun _ => true) sAlarmHour Inp.back).current_mode = Mode.SET_CLOCK_MONTH) ∧
    (sAlarmHour.current_mode = Mode.SET_CLOCK_WEEKDAY →
      (step (fun _ => true) sAlarmHour Inp.back).current_mode = Mode.SET_CLOCK_DAY) ∧
    (sAlarmHour.current_mode = Mode.SET_CLOCK_HOUR →
      (step (fun _ => true) sAlarmHour Inp.back).current_mode = Mode.SET_CLOCK_WEEKDAY) ∧
    (sAlarmHour.current_mode = Mode.SET_CLOCK_MIN →
      (step (fun _ => true) sAlarmHour Inp.back).current_mode = Mode.SET_CLOCK_HOUR) ∧
    (sAlarmHour.current_mode = Mode.SET_CLOCK_SEC →
      (step (fun _ => true) sAlarmHour Inp.back).current_mode = Mode.SET_CLOCK_MIN) ∧
    (sAlarmHour.current_mode = Mode.SET_ALARM_MIN →
      (step (fun _ => true) sAlarmHour Inp.back).current_mode = Mode.SET_ALARM_HOUR) ∧
    (sAlarmHour.current_mode = Mode.SET_ALARM_SEC →
      (step (fun _ => true) sAlarmHour Inp.back).current_mode = Mode.SET_ALARM_MIN) :=
  back_navigation_targets (fun _ => true) sAlarmHour

/-! ## Rejected commit (C8) -/

/-- C8: when the final Select of the clock wizard commits the draft and
the peripheral rejects it (`rtc_set_datetime` returns false), the failure
is recorded in `datetime_set`, the RTC calendar is left unchanged (no
retry), the machine still reaches the terminal SET_CLOCK_FINAL mode whose
screen shows "INVALID DATE", and a further Select leaves the confirmation
screen back to Clock mode. -/
theorem invalid_commit_handling (f f2 : DateTime → Bool) (s : State)
    (hm : s.current_mode = Mode.SET_CLOCK_SEC) (hrej : f s.set_date = false) :
    (step f s Inp.select).datetime_set = false ∧
    (step f s Inp.select).current_mode = Mode.SET_CLOCK_FINAL ∧
    (step f s Inp.select).rtcDatetime = s.rtcDatetime ∧
    renderSetClockFinal (step f s Inp.select).datetime_set = ("INVALID", "DATE") ∧
    (step f2 (step f s Inp.select) Inp.select).current_mode = Mode.CLOCK := by
  obtain ⟨ds, ae, cm, mi, smc, ast, sd, atv, rd, ra⟩ := s
  subst hm
  simp_all [step, renderSetClockFinal]

/-- Witness for C8: the rejected commit at a concrete SET_CLOCK_SEC
state with an always-rejecting peripheral. -/
theorem invalid_commit_handling_witness :
    (step (fun _ => false) { sClock with current_mode := Mode.SET_CLOCK_SEC } Inp.select).datetime_set = false ∧
    (step (fun _ => false) { sClock with current_mode := Mode.SET_CLOCK_SEC } Inp.select).current_mode = Mode.SET_CLOCK_FINAL ∧
    (step (fun _ => false) { sClock with current_mode := Mode.SET_CLOCK_SEC } Inp.select).rtcDatetime =
      { sClock with current_mode := Mode.SET_CLOCK_SEC }.rtcDatetime ∧
    renderSetClockFinal
      (step (fun _ => false) { sClock with current_mode := Mode.SET_CLOCK_SEC } Inp.select).datetime_set =
      ("INVALID", "DATE") ∧
    (step (fun _ => true)
      (step (fun _ => false) { sClock with current_mode := Mode.SET_CLOCK_SEC } Inp.select)
      Inp.select).current_mode = Mode.CLOCK :=
  invalid_commit_handling (fun _ => false) (fun _ => true)
    { sClock with current_mode := Mode.SET_CLOCK_SEC } rfl rfl

/-! ## Cyclic field edits (C6) -/

/-- Iterating the wraparound increment: after `k` presses of Right the
field holds `lo + ((x - lo + k) mod range)`. -/
theorem wrapInc_iterate (lo hi k x : Nat) (h1 : lo ≤ x) (h2 : x ≤ hi) :
    (wrapInc lo hi)^[k] x = lo + (x - lo + k) % (hi - lo + 1) := by
  induction k with
  | zero =>
      have hlt : x - lo < hi - lo + 1 := by omega
      rw [Function.iterate_zero_apply, Nat.add_zero, Nat.mod_eq_of_lt hlt]
      omega
  | succ n ih =>
      rw [Function.iterate_succ_apply', ih]
      have hr : (x - lo + n) % (hi - lo + 1) < hi - lo + 1 :=
        Nat.mod_lt _ (by omega)
      have hkey : ((x - lo + n) % (hi - lo + 1) + 1) % (hi - lo + 1) =
          (x - lo + (n + 1)) % (hi - lo + 1) := by
        rw [Nat.mod_add_mod, ← Nat.add_assoc]
      rw [← hkey]
      unfold wrapInc
      by_cases hc : lo + (x - lo + n) % (hi - lo + 1) = hi
      · have h0 : (x - lo + n) % (hi - lo + 1) + 1 = hi - lo + 1 := by omega
        rw [if_pos hc, h0, Nat.mod_self, Nat.add_zero]
      · have h0 : (x - lo + n) % (hi - lo + 1) + 1 < hi - lo + 1 := by omega
        rw [if_neg hc, Nat.mod_eq_of_lt h0]
        omega

/-- Pressing Right exactly `range` times returns the field to its
original value. -/
theorem wrapInc_cycle (lo hi x : Nat) (h1 : lo ≤ x) (h2 : x ≤ hi) :
    (wrapInc lo hi)^[hi - lo + 1] x = x := by
  rw [wrapInc_iterate lo hi _ x h1 h2, Nat.add_mod_right,
    Nat.mod_eq_of_lt (by omega : x - lo < hi - lo + 1)]
  omega

/-- One `step` in the hour field with a Right press stays in the hour
field and applies `wrapInc 0 23` to the draft hour. -/
theorem step_hour_right (f : DateTime → Bool) (s : State)
    (h : s.current_mode = Mode.SET_CLOCK_HOUR) :
    step f s Inp.right =
      { s with set_date := { s.set_date with hour := wrapInc 0 23 s.set_date.hour } } := by
  obtain ⟨ds, ae, cm, mi, smc, ast, sd, atv, rd, ra⟩ := s
  obtain ⟨y, mo, d, w, hh, mm, ss⟩ := sd
  dsimp only at h
  subst h
  rfl

/-- Iterating Right in the hour field iterates `wrapInc 0 23` on the
draft hour and never leaves the field. -/
theorem step_hour_right_iterate (f : DateTime → Bool) (n : Nat) (s : State)
    (h : s.current_mode = Mode.SET_CLOCK_HOUR) :
    ((fun t => step f t Inp.right)^[n] s).current_mode = Mode.SET_CLOCK_HOUR ∧
    ((fun t => step f t Inp.right)^[n] s).set_date.hour =
      (wrapInc 0 23)^[n] s.set_date.hour := by
  induction n with
  | zero => exact ⟨h, rfl⟩
  | succ n ih =>
      obtain ⟨ihm, ihh⟩ := ih
      rw [Function.iterate_succ_apply', Function.iterate_succ_apply']
      rw [step_hour_right f _ ihm]
      exact ⟨ihm, by rw [ihh]⟩

/-- C6: every wizard field edit is cyclic — applying the Right
(increment-with-wraparound) operation `N` times, where `N` is the field's
range size (4096 for year, 12 for month, `number_of_days year month` for
day, 7 for weekday, 24 for hour, 60 for minute and second), returns any
in-range field value to its original value; in particular, iterating the
whole control-loop `step` on a Right press in the hour field 24 times
restores the draft hour. -/
theorem right_press_cyclic :
    (∀ y : Nat, y ≤ 4095 → (wrapInc 0 4095)^[4096] y = y) ∧
    (∀ m : Nat, 1 ≤ m → m ≤ 12 → (wrapInc 1 12)^[12] m = m) ∧
    (∀ year month d : Nat, 1 ≤ d → d ≤ number_of_days year month →
        (wrapInc 1 (number_of_days year month))^[number_of_days year month] d = d) ∧
    (∀ w : Nat, w ≤ 6 → (wrapInc 0 6)^[7] w = w) ∧
    (∀ h : Nat, h ≤ 23 → (wrapInc 0 23)^[24] h = h) ∧
    (∀ x : Nat, x ≤ 59 → (wrapInc 0 59)^[60] x = x) ∧
    (∀ (f : DateTime → Bool) (s : State), s.current_mode = Mode.SET_CLOCK_HOUR →
        s.set_date.hour ≤ 23 →
        ((fun t => step f t Inp.right)^[24] s).set_date.hour = s.set_date.hour) := by
  refine ⟨?_, ?_, ?_, ?_, ?_, ?_, ?_⟩
  · intro y hy
    have h := wrapInc_cycle 0 4095 y (Nat.zero_le y) hy
    rwa [show (4095 : Nat) - 0 + 1 = 4096 from rfl] at h
  · intro m h1 h2
    have h := wrapInc_cycle 1 12 m h1 h2
    rwa [show (12 : Nat) - 1 + 1 = 12 from rfl] at h
  · intro year month d h1 h2
    have hb := number_of_days_bounds year month
    have he : number_of_days year month - 1 + 1 = number_of_days year month := by omega
    have h := wrapInc_cycle 1 (number_of_days year month) d h1 h2
    rwa [he] at h
  · intro w hw
    have h := wrapInc_cycle 0 6 w (Nat.zero_le w) hw
    rwa [show (6 : Nat) - 0 + 1 = 7 from rfl] at h
  · intro h hh
    have h2 := wrapInc_cycle 0 23 h (Nat.zero_le h) hh
    rwa [show (23 : Nat) - 0 + 1 = 24 from rfl] at h2
  · intro x hx
    have h := wrapInc_cycle 0 59 x (Nat.zero_le x) hx
    rwa [show (59 : Nat) - 0 + 1 = 60 from rfl] at h
  · intro f s hs hle
    have hit := step_hour_right_iterate f 24 s hs
    rw [hit.2]
    have h := wrapInc_cycle 0 23 s.set_date.hour (Nat.zero_le _) hle
    rwa [show (23 : Nat) - 0 + 1 = 24 from rfl] at h

/-- Witness for C6: each cyclicity conjunct applied at a concrete
in-range value (year 2022, month 7, day 29 of Feb 2024, weekday 5,
hour 8, minute 30, and the step-level hour cycle from the boot state). -/
theorem right_press_cyclic_witness :
    (wrapInc 0 4095)^[4096] 2022 = 2022 ∧
    (wrapInc 1 12)^[12] 7 = 7 ∧
    (wrapInc 1 (number_of_days 2024 2))^[number_of_days 2024 2] 29 = 29 ∧
    (wrapInc 0 6)^[7] 5 = 5 ∧
    (wrapInc 0 23)^[24] 8 = 8 ∧
    (wrapInc 0 59)^[60] 30 = 30 ∧
    ((fun t => step (fun _ => true) t Inp.right)^[24]
        { sClock with current_mode := Mode.SET_CLOCK_HOUR }).set_date.hour =
      { sClock with current_mode := Mode.SET_CLOCK_HOUR }.set_date.hour :=
  ⟨right_press_cyclic.1 2022 (by decide),
   right_press_cyclic.2.1 7 (by decide) (by decide),
   right_press_cyclic.2.2.1 2024 2 29 (by decide) (by decide),
   right_press_cyclic.2.2.2.1 5 (by decide),
   right_press_cyclic.2.2.2.2.1 8 (by decide),
   right_press_cyclic.2.2.2.2.2.1 30 (by decide),
   right_press_cyclic.2.2.2.2.2.2 (fun _ => true)
     { sClock with current_mode := Mode.SET_CLOCK_HOUR } rfl (by decide)⟩

/-! ## The firing protocol (C4)

`alarm_callback` busy-waits in two loops: first until the Select button
reads pressed or the 60-second deadline passes, then until it reads
released or the deadline passes; only then is `alarm_fired` cleared.
Each GPIO read together with the `time_us_64()` value at that loop check
is one sample; the callback is embedded as a function consuming a finite
trace of samples. -/

/-- One observation made by a waiting loop of `alarm_callback`: the
Select button level and the microsecond clock at that loop check. -/
structure AlarmSample where
  select : Bool
  time_us : Nat
  deriving DecidableEq, Repr

/-- Consume samples while the loop condition holds; return the sample at
which the loop exits together with the remaining samples (the exit-check
read is consumed too), or `Option.none` if the trace runs out. -/
def waitUntil (p : AlarmSample → Bool) : List AlarmSample → Option (AlarmSample × List AlarmSample)
  | [] => Option.none
  | x :: xs => if p x then some (x, xs) else waitUntil p xs

/-- The two waiting loops of `alarm_callback`, fired at time `start` (µs):
loop 1 runs `while (!select && time < end)`, loop 2 runs
`while (select && time < end)` with `end = start + 60 s`; the result is
the pair of exit samples (the second being the moment `alarm_fired` is
cleared) and the unconsumed trace. -/
def alarm_callback_run (start : Nat) (samples : List AlarmSample) :
    Option (AlarmSample × AlarmSample × List AlarmSample) :=
  let endT := start + MAX_ALARM_TIME_SEC * 1000000
  match waitUntil (fun a => a.select || decide (endT ≤ a.time_us)) samples with
  | Option.none => Option.none
  | some (x1, r1) =>
    match waitUntil (fun a => !a.select || decide (endT ≤ a.time_us)) r1 with
    | Option.none => Option.none
    | some (x2, r2) => some (x1, x2, r2)

/-- If `waitUntil` exits at `x`, then `p x` holds, every consumed sample
failed `p`, and the trace splits accordingly. -/
theorem waitUntil_eq_some (p : AlarmSample → Bool) (l : List AlarmSample)
    (x : AlarmSample) (r : List AlarmSample)
    (h : waitUntil p l = some (x, r)) :
    p x = true ∧ ∃ pre, l = pre ++ x :: r ∧ ∀ y ∈ pre, p y = false := by
  induction l with
  | nil => simp [waitUntil] at h
  | cons a as ih =>
      by_cases hp : p a = true
      · simp [waitUntil, hp] at h
        obtain ⟨hx, hr⟩ := h
        subst hx
        subst hr
        exact ⟨hp, [], rfl, by simp⟩
      · simp [waitUntil, hp] at h
        obtain ⟨hx, pre, hsplit, hpre⟩ := ih h
        refine ⟨hx, a :: pre, by simp [hsplit], ?_⟩
        intro y hy
        rcases List.mem_cons.mp hy with hya | hyp
        · subst hya
          simpa using hp
        · exact hpre y hyp

/-- If some sample in the trace satisfies `p`, `waitUntil` exits. -/
theorem waitUntil_isSome (p : AlarmSample → Bool) (l : List AlarmSample)
    (x : AlarmSample) (hx : x ∈ l) (hp : p x = true) :
    ∃ y r, waitUntil p l = some (y, r) := by
  induction l with
  | nil => simp at hx
  | cons a as ih =>
      by_cases hpa : p a = true
      · exact ⟨a, as, by simp [waitUntil, hpa]⟩
      · rcases List.mem_cons.mp hx with hxa | hxs
        · subst hxa
          exact absurd hp hpa
        · obtain ⟨y, r, hyr⟩ := ih hxs
          exact ⟨y, r, by simp [waitUntil, hpa, hyr]⟩

/-- C4: the firing protocol always terminates by the 60-second deadline:
for every sample trace whose final two observations are at or past
`start + 60 s`, `alarm_callback_run` clears the firing flag at a sample
`x2` that is either a release of the acknowledgement button (ending the
pressed-to-released edge whose press was observed at `x1`) or an
observation at or past the deadline; every earlier sample consumed while
the flag was held was strictly before the deadline, so the flag is never
observed still set after 60 seconds. -/
theorem alarm_firing_bounded (start : Nat) (samples init : List AlarmSample)
    (a b : AlarmSample)
    (hs : samples = init ++ [a, b])
    (ha : start + MAX_ALARM_TIME_SEC * 1000000 ≤ a.time_us)
    (hb : start + MAX_ALARM_TIME_SEC * 1000000 ≤ b.time_us) :
    ∃ x1 x2 pre1 pre2 rest,
      alarm_callback_run start samples = some (x1, x2, rest) ∧
      samples = pre1 ++ x1 :: pre2 ++ x2 :: rest ∧
      (x1.select = true ∨ start + MAX_ALARM_TIME_SEC * 1000000 ≤ x1.time_us) ∧
      (x2.select = false ∨ start + MAX_ALARM_TIME_SEC * 1000000 ≤ x2.time_us) ∧
      (∀ y ∈ pre1, y.select = false ∧ y.time_us < start + MAX_ALARM_TIME_SEC * 1000000) ∧
      (∀ y ∈ pre2, y.select = true ∧ y.time_us < start + MAX_ALARM_TIME_SEC * 1000000) := by
  have hp1a : (a.select || decide (start + MAX_ALARM_TIME_SEC * 1000000 ≤ a.time_us)) = true := by
    simp [ha]
  have hp2b : (!b.select || decide (start + MAX_ALARM_TIME_SEC * 1000000 ≤ b.time_us)) = true := by
    simp [hb]
  have hamem : a ∈ samples := by simp [hs]
  obtain ⟨x1, r1, h1⟩ := waitUntil_isSome
    (fun x : AlarmSample => x.select || decide (start + MAX_ALARM_TIME_SEC * 1000000 ≤ x.time_us))
    samples a hamem hp1a
  obtain ⟨hx1, pre1, hsplit1, hpre1⟩ := waitUntil_eq_some _ samples x1 r1 h1
  -- the first loop cannot run past `a`, so `b` is still unconsumed
  have hlen : pre1.length ≤ init.length := by
    by_contra hgt
    push_neg at hgt
    have ht1 : samples.take (init.length + 1) = init ++ [a] := by
      rw [hs, List.take_append_eq_append_take,
        List.take_of_length_le (by omega : init.length ≤ init.length + 1)]
      have : init.length + 1 - init.length = 1 := by omega
      rw [this]
      rfl
    have ht2 : samples.take (init.length + 1) = pre1.take (init.length + 1) := by
      rw [hsplit1, List.take_append_eq_append_take,
        (by omega : init.length + 1 - pre1.length = 0)]
      simp
    have hamem2 : a ∈ pre1 := by
      apply List.take_subset (init.length + 1)
      rw [← ht2, ht1]
      simp
    have hfalse := hpre1 a hamem2
    rw [hp1a] at hfalse
    cases hfalse
  have hbr1 : b ∈ r1 := by
    have hd1 : samples.drop (pre1.length + 1) = r1 := by
      rw [hsplit1, List.drop_append_eq_append_drop,
        List.drop_eq_nil_of_le (by omega : pre1.length ≤ pre1.length + 1),
        (by omega : pre1.length + 1 - pre1.length = 1)]
      rfl
    have hd2 : b ∈ samples.drop (pre1.length + 1) := by
      have hsamp2 : samples = (init ++ [a]) ++ [b] := by simp [hs]
      rw [hsamp2, List.drop_append_eq_append_drop,
        (by simp; omega : pre1.length + 1 - (init ++ [a]).length = 0)]
      simp
    rw [← hd1]
    exact hd2
  obtain ⟨x2, r2, h2⟩ := waitUntil_isSome
    (fun x : AlarmSample => !x.select || decide (start + MAX_ALARM_TIME_SEC * 1000000 ≤ x.time_us))
    r1 b hbr1 hp2b
  obtain ⟨hx2, pre2, hsplit2, hpre2⟩ := waitUntil_eq_some _ r1 x2 r2 h2
  refine ⟨x1, x2, pre1, pre2, r2, ?_, ?_, ?_, ?_, ?_, ?_⟩
  · unfold alarm_callback_run
    dsimp only
    rw [h1]
    dsimp only
    rw [h2]
  · rw [hsplit2] at hsplit1
    rw [hsplit1]
    simp
  · have hc := hx1
    simp only [Bool.or_eq_true, decide_eq_true_eq] at hc
    exact hc
  · have hc := hx2
    simp only [Bool.or_eq_true, Bool.not_eq_true', decide_eq_true_eq] at hc
    exact hc
  · intro y hy
    have hc := hpre1 y hy
    simp only [Bool.or_eq_false_iff, decide_eq_false_iff_not] at hc
    exact ⟨hc.1, by omega⟩
  · intro y hy
    have hc := hpre2 y hy
    simp only [Bool.or_eq_false_iff, Bool.not_eq_false', decide_eq_false_iff_not] at hc
    exact ⟨hc.1, by omega⟩

/-- Witness for C4: a concrete firing at time 0 where the button is
pressed at 10 µs and released at 20 µs, with trailing deadline samples. -/
theorem alarm_firing_bounded_witness :
    ∃ x1 x2 pre1 pre2 rest,
      alarm_callback_run 0
        [⟨false, 5⟩, ⟨true, 10⟩, ⟨true, 15⟩, ⟨false, 20⟩,
         ⟨false, 60000000⟩, ⟨false, 60000001⟩] = some (x1, x2, rest) ∧
      [⟨false, 5⟩, ⟨true, 10⟩, ⟨true, 15⟩, ⟨false, 20⟩,
         (⟨false, 60000000⟩ : AlarmSample), ⟨false, 60000001⟩] =
        pre1 ++ x1 :: pre2 ++ x2 :: rest ∧
      (x1.select = true ∨ 0 + MAX_ALARM_TIME_SEC * 1000000 ≤ x1.time_us) ∧
      (x2.select = false ∨ 0 + MAX_ALARM_TIME_SEC * 1000000 ≤ x2.time_us) ∧
      (∀ y ∈ pre1, y.select = false ∧ y.time_us < 0 + MAX_ALARM_TIME_SEC * 1000000) ∧
      (∀ y ∈ pre2, y.select = true ∧ y.time_us < 0 + MAX_ALARM_TIME_SEC * 1000000) :=
  alarm_firing_bounded 0
    [⟨false, 5⟩, ⟨true, 10⟩, ⟨true, 15⟩, ⟨false, 20⟩, ⟨false, 60000000⟩, ⟨false, 60000001⟩]
    [⟨false, 5⟩, ⟨true, 10⟩, ⟨true, 15⟩, ⟨false, 20⟩]
    ⟨false, 60000000⟩ ⟨false, 60000001⟩ rfl (by decide) (by decide)

end Alarmclock
